import Mathlib

/-!
# Verification of the `isa_toolkit` repository

Shallow embedding of `src/isa_toolkit/constants.py`, `src/isa_toolkit/isa.py`
and `src/isa_toolkit/aerodynamics.py`.  Python floats are modelled as real
numbers; NumPy vectorized expressions are modelled element-wise (a NumPy
mask/`np.select` computation over an array is the per-element piecewise
function, an array is a `List ℝ`); a raised `ValueError` is modelled as an
`Except.error` value, so a batched call either fails as a whole or returns a
full list of results.
-/

namespace IsaToolkit

noncomputable section

/-! ## constants.py -/

/-- constants.py line 4: standard gravity. -/
def g0 : ℝ := 9.80665

/-- constants.py line 5: specific gas constant for dry air. -/
def R : ℝ := 287.05287

/-- constants.py line 6: ratio of specific heats for air. -/
def gamma_air : ℝ := 1.4

/-- constants.py line 9: sea-level standard temperature. -/
def T0 : ℝ := 288.15

/-- constants.py line 10: sea-level standard pressure. -/
def p0 : ℝ := 101325

/-- constants.py line 15: geopotential Earth radius of the 1976 ISA. -/
def R_EARTH : ℝ := 6356766

/-! ## isa.py : layer table

The NumPy arrays `_Hb`, `_lapserate`, `_Tb`, `_pb` (isa.py lines 31-45) have
three entries each; they are embedded entry by entry.  `_Tb[1]`, `_pb[1]`,
`_Tb[2]`, `_pb[2]` are precomputed from the layer-0 values exactly as in the
source. -/

/-- `_Hb[0]` (isa.py line 31). -/
def Hb0 : ℝ := 0

/-- `_Hb[1]` (isa.py line 31). -/
def Hb1 : ℝ := 11000

/-- `_Hb[2]` (isa.py line 31). -/
def Hb2 : ℝ := 20000

/-- `_lapserate[0]` (isa.py line 33). -/
def L0 : ℝ := -0.0065

/-- `_lapserate[1]` (isa.py line 33). -/
def L1 : ℝ := 0

/-- `_lapserate[2]` (isa.py line 33). -/
def L2 : ℝ := 0.0010

/-- `_Tb[0] = T0` (isa.py line 38). -/
def Tb0 : ℝ := T0

/-- `_pb[0] = p0` (isa.py line 39). -/
def pb0 : ℝ := p0

/-- `_Tb[1] = _Tb[0] + _lapserate[0] * (11_000.0 - _Hb[0])` (isa.py line 41). -/
def Tb1 : ℝ := Tb0 + L0 * (11000 - Hb0)

/-- `_pb[1] = _pb[0] * (_Tb[1] / _Tb[0]) ** (-g0 / (R * _lapserate[0]))` (isa.py line 42). -/
def pb1 : ℝ := pb0 * (Tb1 / Tb0) ^ (-g0 / (R * L0))

/-- `_Tb[2] = _Tb[1]` (isa.py line 44). -/
def Tb2 : ℝ := Tb1

/-- `_pb[2] = _pb[1] * np.exp(-g0 * (20_000.0 - 11_000.0) / (R * _Tb[1]))` (isa.py line 45). -/
def pb2 : ℝ := pb1 * Real.exp (-g0 * (20000 - 11000) / (R * Tb1))

/-! ## isa.py : altitude conversions -/

/-- isa.py lines 48-59: `H = R_EARTH * z / (R_EARTH + z)`. -/
def geometric2geopotential (z : ℝ) : ℝ := R_EARTH * z / (R_EARTH + z)

/-- isa.py lines 62-74: `z = R_EARTH * H / (R_EARTH - H)`. -/
def geopotential2geometric (H : ℝ) : ℝ := R_EARTH * H / (R_EARTH - H)

/-! ## isa.py : layer formulas and the per-element state -/

/-- isa.py lines 77-81, `_isa_gradient`: `T = Tb + L * (H - Hb)`;
`p = pb * (T / Tb) ** (-g0 / (R * L))`.  Returns the pair `(T, p)`. -/
def isa_gradient (H Hb Tb pb L : ℝ) : ℝ × ℝ :=
  let T := Tb + L * (H - Hb)
  (T, pb * (T / Tb) ^ (-g0 / (R * L)))

/-- isa.py lines 84-88, `_isa_isothermal`: `T = Tb`;
`p = pb * np.exp(-g0 * (H - Hb) / (R * Tb))`.  Returns the pair `(T, p)`. -/
def isa_isothermal (H Hb Tb pb : ℝ) : ℝ × ℝ :=
  (Tb, pb * Real.exp (-g0 * (H - Hb) / (R * Tb)))

/-- isa.py lines 132-154: the `np.select` layer classification together with
the three masked assignments, read at a single element `H`:
layer 0 (`H < 11000`) uses `_isa_gradient` with the layer-0 table row,
layer 1 (`11000 ≤ H < 20000`) uses `_isa_isothermal` with the layer-1 row,
layer 2 (`H ≥ 20000`) uses `_isa_gradient` with the layer-2 row. -/
def isaTP (H : ℝ) : ℝ × ℝ :=
  if H < 11000 then isa_gradient H Hb0 Tb0 pb0 L0
  else if H < 20000 then isa_isothermal H Hb1 Tb1 pb1
  else isa_gradient H Hb2 Tb2 pb2 L2

/-- isa.py lines 12-26: the `ISAState` dataclass, at one element. -/
structure ISAState where
  geometric_altitude : ℝ
  geopotential_altitude : ℝ
  temperature : ℝ
  pressure : ℝ
  density : ℝ
  speed_of_sound : ℝ
  dynamic_viscosity : ℝ
  kinematic_viscosity : ℝ

/-- isa.py line 126: `H = geometric2geopotential(altitude) if geometric else
np.asarray(altitude, dtype=float)`, at one element. -/
def convertH (geometric : Bool) (z : ℝ) : ℝ :=
  if geometric then geometric2geopotential z else z

/-- isa.py lines 126-182 without the range check: all eight fields of the
returned `ISAState`, at one element of the input.  `rho = p / (R * T)`,
`a = sqrt(gamma_air * R * T)`, Sutherland `mu = 1.458e-6 * T**1.5 / (T + 110.4)`,
`nu = mu / rho` (lines 156-160); the companion altitude of line 170. -/
def isaPoint (altitude : ℝ) (geometric : Bool) : ISAState :=
  let H := convertH geometric altitude
  let T := (isaTP H).1
  let p := (isaTP H).2
  let rho := p / (R * T)
  let a := Real.sqrt (gamma_air * R * T)
  let mu := 1.458e-6 * T ^ (1.5 : ℝ) / (T + 110.4)
  let nu := mu / rho
  { geometric_altitude := if geometric then altitude else geopotential2geometric H
    geopotential_altitude := H
    temperature := T
    pressure := p
    density := rho
    speed_of_sound := a
    dynamic_viscosity := mu
    kinematic_viscosity := nu }

/-- The `ValueError` of isa.py line 130, as a value. -/
inductive IsaError where
  | outOfRange
deriving DecidableEq

open Classical in
/-- isa.py lines 102-182, `isa_atmosphere`, for an array altitude (a list of
elements): convert to geopotential (line 126), fail the whole call if any
element of `H` is below 0 or above 32000 (lines 129-130), otherwise return the
per-element states (the masked vectorized computation of lines 132-182). -/
def isa_atmosphere (altitude : List ℝ) (geometric : Bool) :
    Except IsaError (List ISAState) :=
  let H := altitude.map (convertH geometric)
  if ∃ x ∈ H, x < 0 ∨ 32000 < x then .error .outOfRange
  else .ok (altitude.map (fun z => isaPoint z geometric))

/-- isa.py lines 102-182, `isa_atmosphere`, for a scalar altitude: the same
range check on the single converted value, and scalar fields out
(`_maybe_scalar`, lines 91-99 and 162-171). -/
def isa_atmosphere_scalar (altitude : ℝ) (geometric : Bool) :
    Except IsaError ISAState :=
  let H := convertH geometric altitude
  if H < 0 ∨ 32000 < H then .error .outOfRange
  else .ok (isaPoint altitude geometric)

/-- isa.py line 184: `sea_level_atmosphere = isa_atmosphere(0)` (geometric
defaults to True; the call at altitude 0 is in range and returns the point). -/
def sea_level_atmosphere : ISAState := isaPoint 0 true

/-! ## aerodynamics.py -/

/-- The errors of `aerodynamic_state`: the explicit `ValueError` of
aerodynamics.py lines 56-57 for a bad `speed_type` (the spec calls it
`InvalidArgument`), and the NumPy broadcasting error raised when array
arguments have incompatible shapes (the spec calls it `ShapeMismatch`). -/
inductive AeroError where
  | invalidArgument
  | shapeMismatch
deriving DecidableEq

/-- aerodynamics.py lines 9-20: the `AerodynamicState` dataclass, at one
element. -/
structure AeroState where
  TAS : ℝ
  EAS : ℝ
  mach : ℝ
  reynolds : ℝ
  dynamic_pressure : ℝ
  stagnation_pressure : ℝ

/-- The four-way dispatch of aerodynamics.py lines 80-92: which branch of the
`if speed_type == "TAS" / elif "EAS" / elif "mach" / else` chain a given
`speed_type` string selects.  The `else` branch (lines 90-92) sets the
zero-valued fallback. -/
inductive SpeedBranch where
  | tas
  | eas
  | mach
  | fallback
deriving DecidableEq

/-- The branch of aerodynamics.py lines 80-92 selected by `speed_type`. -/
def speedBranch (speed_type : String) : SpeedBranch :=
  if speed_type = "TAS" then .tas
  else if speed_type = "EAS" then .eas
  else if speed_type = "mach" then .mach
  else .fallback

/-- aerodynamics.py lines 22-106, `aerodynamic_state`, with every argument a
scalar.  Validation of `speed_type` against `{"TAS", "EAS", "mach"}`
(lines 55-57); `atmosphere_state=None` defaults to `sea_level_atmosphere`
(lines 60-61); the TAS/EAS pair by branch (lines 80-92, the dead `else`
fallback sets zeros); then `mach = TAS/sos`, `reynolds = TAS*rho*l/mu`,
`q = 0.5*rho*TAS**2`, `stagnation = q + p` (lines 94-97). -/
def aerodynamic_state (speed characteristic_length : ℝ) (speed_type : String)
    (atmosphere_state : Option ISAState) : Except AeroError AeroState :=
  if ¬(speed_type = "TAS" ∨ speed_type = "EAS" ∨ speed_type = "mach") then
    .error .invalidArgument
  else
    let atm := atmosphere_state.getD sea_level_atmosphere
    let rho := atm.density
    let sos := atm.speed_of_sound
    let mu := atm.dynamic_viscosity
    let p := atm.pressure
    let rho0 := sea_level_atmosphere.density
    let TE : ℝ × ℝ :=
      if speed_type = "TAS" then (speed, speed * Real.sqrt (rho / rho0))
      else if speed_type = "EAS" then (speed * Real.sqrt (rho0 / rho), speed)
      else if speed_type = "mach" then
        (speed * sos, speed * sos * Real.sqrt (rho / rho0))
      else (0, 0)
    .ok { TAS := TE.1
          EAS := TE.2
          mach := TE.1 / sos
          reynolds := TE.1 * rho * characteristic_length / mu
          dynamic_pressure := 0.5 * rho * TE.1 ^ 2
          stagnation_pressure := 0.5 * rho * TE.1 ^ 2 + p }

/-! ### Batched `aerodynamic_state`

NumPy values of rank at most one: a scalar (a Python float or a 0-d array)
or a 1-d array. -/

/-- A scalar-or-array value. -/
inductive Val where
  | scalar (x : ℝ)
  | arr (xs : List ℝ)

/-- The shape of a value: `none` for a scalar, `some n` for a 1-d array of
length `n`. -/
def Val.shape : Val → Option ℕ
  | .scalar _ => none
  | .arr xs => some xs.length

/-- A NumPy element-wise binary operation on rank-≤1 operands, with NumPy
broadcasting: scalars broadcast against arrays; arrays of equal length
combine element-wise; a length-1 array broadcasts against any array; any
other pair of lengths raises the broadcasting error. -/
def bcast (f : ℝ → ℝ → ℝ) : Val → Val → Except AeroError Val
  | .scalar x, .scalar y => .ok (.scalar (f x y))
  | .scalar x, .arr ys => .ok (.arr (ys.map (fun y => f x y)))
  | .arr xs, .scalar y => .ok (.arr (xs.map (fun x => f x y)))
  | .arr xs, .arr ys =>
    if xs.length = ys.length then .ok (.arr (List.zipWith f xs ys))
    else
      match xs, ys with
      | [x], ys => .ok (.arr (ys.map (fun y => f x y)))
      | xs, [y] => .ok (.arr (xs.map (fun x => f x y)))
      | _, _ => .error .shapeMismatch

/-- The `atmosphere_state` argument of aerodynamics.py line 27: one
`ISAState`, or a sequence of them (lines 63-73 extract the per-state fields
into arrays in the sequence case). -/
inductive AtmInput where
  | one (st : ISAState)
  | many (sts : List ISAState)

/-- Densities of the atmosphere argument (aerodynamics.py lines 64 and 70). -/
def AtmInput.densityV : AtmInput → Val
  | .one st => .scalar st.density
  | .many sts => .arr (sts.map ISAState.density)

/-- Speeds of sound of the atmosphere argument (lines 65 and 71). -/
def AtmInput.sosV : AtmInput → Val
  | .one st => .scalar st.speed_of_sound
  | .many sts => .arr (sts.map ISAState.speed_of_sound)

/-- Dynamic viscosities of the atmosphere argument (lines 66 and 72). -/
def AtmInput.muV : AtmInput → Val
  | .one st => .scalar st.dynamic_viscosity
  | .many sts => .arr (sts.map ISAState.dynamic_viscosity)

/-- Pressures of the atmosphere argument (lines 67 and 73). -/
def AtmInput.pV : AtmInput → Val
  | .one st => .scalar st.pressure
  | .many sts => .arr (sts.map ISAState.pressure)

/-- The shape contributed by the atmosphere argument: a single state is
scalar-shaped, a sequence of `n` states is array-shaped of length `n`. -/
def AtmInput.shape : AtmInput → Option ℕ
  | .one _ => none
  | .many sts => some sts.length

/-- aerodynamics.py lines 9-20, with array-valued fields. -/
structure AeroVState where
  TAS : Val
  EAS : Val
  mach : Val
  reynolds : Val
  dynamic_pressure : Val
  stagnation_pressure : Val

/-- aerodynamics.py lines 80-92: the TAS/EAS pair, batched.
`EAS = TAS * np.sqrt(rho / rho0)` and `TAS = EAS * np.sqrt(rho0 / rho)` are
element-wise in their two operands; the dead `else` branch sets
`np.array([0])` for both. -/
def tasEasV (speed : Val) (speed_type : String) (rho sos : Val) (rho0 : ℝ) :
    Except AeroError (Val × Val) :=
  if speed_type = "TAS" then
    bcast (fun t r => t * Real.sqrt (r / rho0)) speed rho >>= fun EAS =>
    .ok (speed, EAS)
  else if speed_type = "EAS" then
    bcast (fun e r => e * Real.sqrt (rho0 / r)) speed rho >>= fun TAS =>
    .ok (TAS, speed)
  else if speed_type = "mach" then
    bcast (fun m s => m * s) speed sos >>= fun TAS =>
    bcast (fun t r => t * Real.sqrt (r / rho0)) TAS rho >>= fun EAS =>
    .ok (TAS, EAS)
  else .ok (.arr [0], .arr [0])

/-- aerodynamics.py lines 94-106: the part of `aerodynamic_state` after the
TAS/EAS dispatch, batched: `mach = TAS / sos` (line 94),
`reynolds = TAS * rho * characteristic_length / mu` (line 95),
`dynamic_pressure = 0.5 * rho * TAS**2` (line 96),
`stagnation_pressure = dynamic_pressure + p` (line 97), then the returned
record (lines 99-106). -/
def aeroRest (TE : Val × Val) (rho sos mu p charlen : Val) :
    Except AeroError AeroVState :=
  bcast (fun t s => t / s) TE.1 sos >>= fun mach =>
  bcast (fun t r => t * r) TE.1 rho >>= fun r1 =>
  bcast (fun a l => a * l) r1 charlen >>= fun r2 =>
  bcast (fun a m => a / m) r2 mu >>= fun reynolds =>
  bcast (fun r t => 0.5 * r * t ^ 2) rho TE.1 >>= fun q =>
  bcast (fun a b => a + b) q p >>= fun pstag =>
  .ok { TAS := TE.1
        EAS := TE.2
        mach := mach
        reynolds := reynolds
        dynamic_pressure := q
        stagnation_pressure := pstag }

/-- aerodynamics.py lines 22-106, `aerodynamic_state`, with batched
arguments: `speed` and `characteristic_length` scalar or 1-d, the atmosphere
a single state or a sequence of states.  Same structure as the scalar
instantiation; every vectorized expression goes through NumPy broadcasting
(`bcast`), and the first incompatible pair of shapes aborts the call the way
the NumPy exception does. -/
def aerodynamic_state_bc (speed characteristic_length : Val)
    (speed_type : String) (atmosphere_state : Option AtmInput) :
    Except AeroError AeroVState :=
  if ¬(speed_type = "TAS" ∨ speed_type = "EAS" ∨ speed_type = "mach") then
    .error .invalidArgument
  else
    let atm := atmosphere_state.getD (.one sea_level_atmosphere)
    tasEasV speed speed_type atm.densityV atm.sosV
        sea_level_atmosphere.density >>= fun TE =>
    aeroRest TE atm.densityV atm.sosV atm.muV atm.pV characteristic_length

/-- NumPy broadcast compatibility of two rank-≤1 shapes. -/
def shapeCompat : Option ℕ → Option ℕ → Prop
  | some m, some n => m = n ∨ m = 1 ∨ n = 1
  | _, _ => True

/-- The broadcast shape of two compatible rank-≤1 shapes. -/
def shapeJoin : Option ℕ → Option ℕ → Option ℕ
  | none, t => t
  | some m, none => some m
  | some m, some n => some (if m = 1 then n else m)

end

/-! ## Facts about the layer table -/

lemma Tb0_pos : (0 : ℝ) < Tb0 := by norm_num [Tb0, T0]

lemma pb0_pos : (0 : ℝ) < pb0 := by norm_num [pb0, p0]

lemma Tb1_eq : Tb1 = 216.65 := by norm_num [Tb1, Tb0, T0, L0, Hb0]

lemma Tb1_pos : (0 : ℝ) < Tb1 := by rw [Tb1_eq]; norm_num

lemma pb1_pos : (0 : ℝ) < pb1 := by
  have hbase : (0 : ℝ) < Tb1 / Tb0 := div_pos Tb1_pos Tb0_pos
  exact mul_pos pb0_pos (Real.rpow_pos_of_pos hbase _)

lemma pb2_pos : (0 : ℝ) < pb2 :=
  mul_pos pb1_pos (Real.exp_pos _)

lemma alpha0_pos : (0 : ℝ) < -g0 / (R * L0) := by norm_num [g0, R, L0]

lemma beta2_neg : -g0 / (R * L2) < (0 : ℝ) := by norm_num [g0, R, L2]

/-! ## Sea level -/

lemma g2g_zero : geometric2geopotential 0 = 0 := by
  simp [geometric2geopotential]

lemma isaTP_zero : isaTP 0 = (T0, p0) := by
  unfold isaTP
  rw [if_pos (by norm_num : (0 : ℝ) < 11000)]
  simp only [isa_gradient]
  have hT : Tb0 + L0 * ((0 : ℝ) - Hb0) = T0 := by norm_num [Tb0, L0, Hb0]
  rw [hT]
  have hdiv : T0 / Tb0 = 1 := by
    rw [Tb0, div_self (by norm_num [T0])]
  rw [hdiv, Real.one_rpow, mul_one, pb0]

lemma sea_level_temperature : sea_level_atmosphere.temperature = T0 := by
  simp [sea_level_atmosphere, isaPoint, convertH, g2g_zero, isaTP_zero]

lemma sea_level_pressure : sea_level_atmosphere.pressure = p0 := by
  simp [sea_level_atmosphere, isaPoint, convertH, g2g_zero, isaTP_zero]

lemma sea_level_density : sea_level_atmosphere.density = p0 / (R * T0) := by
  simp [sea_level_atmosphere, isaPoint, convertH, g2g_zero, isaTP_zero]

lemma sea_level_density_pos : 0 < sea_level_atmosphere.density := by
  rw [sea_level_density]; norm_num [p0, R, T0]

/-! ## Claim theorems: the atmosphere model -/

/-- C4: for every `z` in `[0, 32000]`, converting geometric to geopotential
altitude and back recovers `z` exactly (hence also within `1e-9` relative
error). -/
theorem altitude_conversion_roundtrip (z : ℝ) (h0 : 0 ≤ z) (h1 : z ≤ 32000) :
    geopotential2geometric (geometric2geopotential z) = z ∧
    |geopotential2geometric (geometric2geopotential z) - z| ≤ 1e-9 * |z| := by
  have hA : (0 : ℝ) < R_EARTH := by norm_num [R_EARTH]
  have hz2 : (0 : ℝ) < R_EARTH + z := by linarith
  have hq : R_EARTH * z / (R_EARTH + z) < R_EARTH := by
    rw [div_lt_iff₀ hz2]; nlinarith
  have hden : (0 : ℝ) < R_EARTH - R_EARTH * z / (R_EARTH + z) := by linarith
  have key : geopotential2geometric (geometric2geopotential z) = z := by
    unfold geopotential2geometric geometric2geopotential
    rw [div_eq_iff hden.ne']
    field_simp
    ring
  refine ⟨key, ?_⟩
  rw [key, sub_self, abs_zero]
  positivity

/-- C4 witness at `z = 1000`. -/
theorem altitude_conversion_roundtrip_witness :
    geopotential2geometric (geometric2geopotential 1000) = 1000 ∧
    |geopotential2geometric (geometric2geopotential 1000) - 1000| ≤
      1e-9 * |(1000 : ℝ)| :=
  altitude_conversion_roundtrip 1000 (by norm_num) (by norm_num)

/-- C2: the atmosphere query at geometric altitude 0 returns temperature
288.15 K and pressure 101325 Pa exactly, and density within `1e-6` of
1.225 kg/m³. -/
theorem isa_sea_level_state :
    ∃ st : ISAState, isa_atmosphere_scalar 0 true = .ok st ∧
      st.temperature = 288.15 ∧ st.pressure = 101325 ∧
      |st.density - 1.225| < 1e-6 := by
  refine ⟨isaPoint 0 true, ?_, ?_, ?_, ?_⟩
  · unfold isa_atmosphere_scalar
    rw [show convertH true 0 = 0 by simp [convertH, g2g_zero]]
    rw [if_neg (by norm_num)]
  · simpa [T0] using sea_level_temperature
  · simpa [p0] using sea_level_pressure
  · have h := sea_level_density
    rw [show (isaPoint 0 true) = sea_level_atmosphere from rfl, h]
    rw [abs_lt]
    constructor <;> norm_num [p0, R, T0]

lemma isa_batch_ok (altitude : List ℝ) (geometric : Bool)
    (h : ∀ x ∈ altitude.map (convertH geometric), 0 ≤ x ∧ x ≤ 32000) :
    isa_atmosphere altitude geometric =
      .ok (altitude.map (fun z => isaPoint z geometric)) := by
  have hno : ¬ ∃ x ∈ altitude.map (convertH geometric), x < 0 ∨ 32000 < x := by
    rintro ⟨x, hx, hv⟩
    obtain ⟨h0, h32⟩ := h x hx
    rcases hv with hv | hv <;> linarith
  simp only [isa_atmosphere]
  rw [if_neg hno]

/-- C1: the batched atmosphere query fails with the out-of-range error
exactly when some element of the converted geopotential altitude is below 0 m
or above 32000 m, and an input whose converted elements all lie in
`[0, 32000]` returns the full list of per-element states. -/
theorem isa_range_check (altitude : List ℝ) (geometric : Bool) :
    (isa_atmosphere altitude geometric = .error .outOfRange ↔
      ∃ x ∈ altitude.map (convertH geometric), x < 0 ∨ 32000 < x) ∧
    ((∀ x ∈ altitude.map (convertH geometric), 0 ≤ x ∧ x ≤ 32000) →
      isa_atmosphere altitude geometric =
        .ok (altitude.map (fun z => isaPoint z geometric))) := by
  by_cases h : ∃ x ∈ altitude.map (convertH geometric), x < 0 ∨ 32000 < x
  · constructor
    · simp only [isa_atmosphere]
      rw [if_pos h]
      exact ⟨fun _ => h, fun _ => rfl⟩
    · intro hall
      obtain ⟨x, hx, hviol⟩ := h
      obtain ⟨hx0, hx32⟩ := hall x hx
      rcases hviol with hv | hv <;> linarith
  · constructor
    · simp only [isa_atmosphere]
      rw [if_neg h]
      exact ⟨fun he => absurd he (by simp), fun hex => absurd hex h⟩
    · intro hall
      exact isa_batch_ok altitude geometric hall

/-! ## Layer-boundary continuity -/

lemma grad0_at_11000 : isa_gradient 11000 Hb0 Tb0 pb0 L0 = (Tb1, pb1) := rfl

lemma isaTP_at_11000 : isaTP 11000 = (Tb1, pb1) := by
  unfold isaTP
  rw [if_neg (by norm_num), if_pos (by norm_num : (11000 : ℝ) < 20000)]
  unfold isa_isothermal
  have harg : -g0 * ((11000 : ℝ) - Hb1) / (R * Tb1) = 0 := by
    norm_num [Hb1]
  rw [harg, Real.exp_zero, mul_one]

lemma iso_at_20000 : isa_isothermal 20000 Hb1 Tb1 pb1 = (Tb2, pb2) := rfl

lemma isaTP_at_20000 : isaTP 20000 = (Tb2, pb2) := by
  unfold isaTP
  rw [if_neg (by norm_num), if_neg (by norm_num)]
  simp only [isa_gradient]
  have hT : Tb2 + L2 * ((20000 : ℝ) - Hb2) = Tb2 := by norm_num [L2, Hb2]
  rw [hT]
  have hdiv : Tb2 / Tb2 = 1 :=
    div_self (by rw [Tb2, Tb1_eq]; norm_num)
  rw [hdiv, Real.one_rpow, mul_one]

/-- C3: the precomputed layer table is continuous across the boundaries at
11000 m and 20000 m: the previous layer's formula evaluated at the boundary
equals the next layer's base values, which is exactly what the query returns
at the boundary, so temperature and pressure agree from both sides (relative
difference 0, in particular below `1e-6`). -/
theorem isa_layer_boundary_continuity :
    isa_gradient 11000 Hb0 Tb0 pb0 L0 = (Tb1, pb1) ∧
    isaTP 11000 = (Tb1, pb1) ∧
    isa_isothermal 20000 Hb1 Tb1 pb1 = (Tb2, pb2) ∧
    isaTP 20000 = (Tb2, pb2) ∧
    |(isa_gradient 11000 Hb0 Tb0 pb0 L0).2 - (isaTP 11000).2| <
      1e-6 * (isaTP 11000).2 ∧
    |(isa_gradient 11000 Hb0 Tb0 pb0 L0).1 - (isaTP 11000).1| <
      1e-6 * (isaTP 11000).1 ∧
    |(isa_isothermal 20000 Hb1 Tb1 pb1).2 - (isaTP 20000).2| <
      1e-6 * (isaTP 20000).2 ∧
    |(isa_isothermal 20000 Hb1 Tb1 pb1).1 - (isaTP 20000).1| <
      1e-6 * (isaTP 20000).1 := by
  refine ⟨grad0_at_11000, isaTP_at_11000, iso_at_20000, isaTP_at_20000,
    ?_, ?_, ?_, ?_⟩
  · rw [grad0_at_11000, isaTP_at_11000]
    simp only [sub_self, abs_zero]
    have := pb1_pos; positivity
  · rw [grad0_at_11000, isaTP_at_11000]
    simp only [sub_self, abs_zero]
    have := Tb1_pos; positivity
  · rw [iso_at_20000, isaTP_at_20000]
    simp only [sub_self, abs_zero]
    have := pb2_pos; positivity
  · rw [iso_at_20000, isaTP_at_20000]
    simp only [sub_self, abs_zero]
    have h2 : (0 : ℝ) < Tb2 := by rw [Tb2]; exact Tb1_pos
    positivity

/-! ## Batched versus scalar query -/

lemma isa_scalar_ok {H : ℝ} (geometric : Bool)
    (h0 : 0 ≤ convertH geometric H) (h32 : convertH geometric H ≤ 32000) :
    isa_atmosphere_scalar H geometric = .ok (isaPoint H geometric) := by
  unfold isa_atmosphere_scalar
  rw [if_neg (by push_neg; exact ⟨h0, h32⟩)]

/-- C5: on an in-range batched input the atmosphere query returns the list of
per-element states, in input order and of the input's length, and each element
is exactly the state the scalar query returns at that element's altitude
(the scalar query returning a scalar state). -/
theorem isa_batched_matches_scalar (altitude : List ℝ) (geometric : Bool)
    (h : ∀ x ∈ altitude.map (convertH geometric), 0 ≤ x ∧ x ≤ 32000) :
    isa_atmosphere altitude geometric =
      .ok (altitude.map (fun z => isaPoint z geometric)) ∧
    ∀ z ∈ altitude,
      isa_atmosphere_scalar z geometric = .ok (isaPoint z geometric) := by
  constructor
  · exact isa_batch_ok altitude geometric h
  · intro z hz
    have hmem : convertH geometric z ∈ altitude.map (convertH geometric) :=
      List.mem_map_of_mem _ hz
    obtain ⟨h0, h32⟩ := h _ hmem
    exact isa_scalar_ok geometric h0 h32

/-- C5 witness at the altitude array `[0, 5000, 10000]` (geopotential). -/
theorem isa_batched_matches_scalar_witness :
    isa_atmosphere [0, 5000, 10000] false =
      .ok ([0, 5000, 10000].map (fun z => isaPoint z false)) ∧
    ∀ z ∈ [(0 : ℝ), 5000, 10000],
      isa_atmosphere_scalar z false = .ok (isaPoint z false) :=
  isa_batched_matches_scalar [0, 5000, 10000] false (by
    intro x hx
    simp only [convertH, List.map, List.mem_cons, List.not_mem_nil,
      or_false, if_false, Bool.false_eq_true, if_neg] at hx
    rcases hx with h | h | h <;> subst h <;> norm_num)

/-! ## Strict monotonicity of pressure in altitude -/

lemma div_lt_div_right_pos {a b c : ℝ} (hc : 0 < c) (h : a < b) :
    a / c < b / c := by
  rw [div_eq_mul_inv, div_eq_mul_inv]
  exact mul_lt_mul_of_pos_right h (inv_pos.mpr hc)

lemma grad0_T_pos {h : ℝ} (hh : h ≤ 11000) : 0 < Tb0 + L0 * (h - Hb0) := by
  simp only [Tb0, T0, L0, Hb0]
  linarith

lemma grad0_anti {h1 h2 : ℝ} (h2le : h2 ≤ 11000) (hlt : h1 < h2) :
    (isa_gradient h2 Hb0 Tb0 pb0 L0).2 < (isa_gradient h1 Hb0 Tb0 pb0 L0).2 := by
  show pb0 * ((Tb0 + L0 * (h2 - Hb0)) / Tb0) ^ (-g0 / (R * L0)) <
       pb0 * ((Tb0 + L0 * (h1 - Hb0)) / Tb0) ^ (-g0 / (R * L0))
  have hT2 : 0 < Tb0 + L0 * (h2 - Hb0) := grad0_T_pos h2le
  have hTlt : Tb0 + L0 * (h2 - Hb0) < Tb0 + L0 * (h1 - Hb0) := by
    simp only [L0, Hb0]; linarith
  have hx2 : (0 : ℝ) < (Tb0 + L0 * (h2 - Hb0)) / Tb0 := div_pos hT2 Tb0_pos
  have hxlt : (Tb0 + L0 * (h2 - Hb0)) / Tb0 < (Tb0 + L0 * (h1 - Hb0)) / Tb0 :=
    div_lt_div_right_pos Tb0_pos hTlt
  exact mul_lt_mul_of_pos_left (Real.rpow_lt_rpow hx2.le hxlt alpha0_pos) pb0_pos

lemma RTb1_pos : (0 : ℝ) < R * Tb1 := by
  rw [Tb1_eq]; norm_num [R]

lemma iso_anti {h1 h2 : ℝ} (hlt : h1 < h2) :
    (isa_isothermal h2 Hb1 Tb1 pb1).2 < (isa_isothermal h1 Hb1 Tb1 pb1).2 := by
  show pb1 * Real.exp (-g0 * (h2 - Hb1) / (R * Tb1)) <
       pb1 * Real.exp (-g0 * (h1 - Hb1) / (R * Tb1))
  have harg : -g0 * (h2 - Hb1) < -g0 * (h1 - Hb1) := by
    simp only [g0, Hb1]; linarith
  exact mul_lt_mul_of_pos_left
    (Real.exp_lt_exp.mpr (div_lt_div_right_pos RTb1_pos harg)) pb1_pos

lemma iso_le_pb1 {h : ℝ} (hge : 11000 ≤ h) :
    (isa_isothermal h Hb1 Tb1 pb1).2 ≤ pb1 := by
  show pb1 * Real.exp (-g0 * (h - Hb1) / (R * Tb1)) ≤ pb1
  have harg : -g0 * (h - Hb1) / (R * Tb1) ≤ 0 := by
    apply div_nonpos_of_nonpos_of_nonneg
    · simp only [g0, Hb1]; linarith
    · exact RTb1_pos.le
  exact mul_le_of_le_one_right pb1_pos.le (Real.exp_le_one_iff.mpr harg)

lemma Tb2_pos : (0 : ℝ) < Tb2 := by rw [Tb2]; exact Tb1_pos

lemma grad2_T_pos {h : ℝ} (hge : 20000 ≤ h) : 0 < Tb2 + L2 * (h - Hb2) := by
  rw [Tb2, Tb1_eq]
  simp only [L2, Hb2]
  linarith

lemma grad2_anti {h1 h2 : ℝ} (h1ge : 20000 ≤ h1) (hlt : h1 < h2) :
    (isa_gradient h2 Hb2 Tb2 pb2 L2).2 < (isa_gradient h1 Hb2 Tb2 pb2 L2).2 := by
  show pb2 * ((Tb2 + L2 * (h2 - Hb2)) / Tb2) ^ (-g0 / (R * L2)) <
       pb2 * ((Tb2 + L2 * (h1 - Hb2)) / Tb2) ^ (-g0 / (R * L2))
  have hT1 : 0 < Tb2 + L2 * (h1 - Hb2) := grad2_T_pos h1ge
  have hTlt : Tb2 + L2 * (h1 - Hb2) < Tb2 + L2 * (h2 - Hb2) := by
    simp only [L2, Hb2]; linarith
  have hx1 : (0 : ℝ) < (Tb2 + L2 * (h1 - Hb2)) / Tb2 := div_pos hT1 Tb2_pos
  have hxlt : (Tb2 + L2 * (h1 - Hb2)) / Tb2 < (Tb2 + L2 * (h2 - Hb2)) / Tb2 :=
    div_lt_div_right_pos Tb2_pos hTlt
  exact mul_lt_mul_of_pos_left (Real.rpow_lt_rpow_of_neg hx1 hxlt beta2_neg) pb2_pos

lemma grad2_le_pb2 {h : ℝ} (hge : 20000 ≤ h) :
    (isa_gradient h Hb2 Tb2 pb2 L2).2 ≤ pb2 := by
  show pb2 * ((Tb2 + L2 * (h - Hb2)) / Tb2) ^ (-g0 / (R * L2)) ≤ pb2
  have hx : 1 ≤ (Tb2 + L2 * (h - Hb2)) / Tb2 := by
    rw [le_div_iff₀ Tb2_pos, one_mul]
    simp only [L2, Hb2]
    linarith
  exact mul_le_of_le_one_right pb2_pos.le
    (Real.rpow_le_one_of_one_le_of_nonpos hx beta2_neg.le)

lemma pb2_lt_pb1 : pb2 < pb1 := by
  rw [pb2]
  have harg : -g0 * ((20000 : ℝ) - 11000) / (R * Tb1) < 0 := by
    apply div_neg_of_neg_of_pos
    · norm_num [g0]
    · exact RTb1_pos
  exact mul_lt_of_lt_one_right pb1_pos (Real.exp_lt_one_iff.mpr harg)

lemma isaTP_layer0 {h : ℝ} (hlt : h < 11000) :
    isaTP h = isa_gradient h Hb0 Tb0 pb0 L0 := by
  unfold isaTP; rw [if_pos hlt]

lemma isaTP_layer1 {h : ℝ} (hge : 11000 ≤ h) (hlt : h < 20000) :
    isaTP h = isa_isothermal h Hb1 Tb1 pb1 := by
  unfold isaTP; rw [if_neg (not_lt.mpr hge), if_pos hlt]

lemma isaTP_layer2 {h : ℝ} (hge : 20000 ≤ h) :
    isaTP h = isa_gradient h Hb2 Tb2 pb2 L2 := by
  unfold isaTP
  rw [if_neg (by linarith), if_neg (not_lt.mpr hge)]

lemma isaTP_pressure_anti {h1 h2 : ℝ} (h0 : 0 ≤ h1) (hlt : h1 < h2)
    (h32 : h2 ≤ 32000) : (isaTP h2).2 < (isaTP h1).2 := by
  rcases lt_or_le h1 11000 with c1 | c1
  · rcases lt_or_le h2 11000 with c2 | c2
    · rw [isaTP_layer0 c1, isaTP_layer0 c2]
      exact grad0_anti c2.le hlt
    · have hp1 : pb1 < (isaTP h1).2 := by
        rw [isaTP_layer0 c1]
        have hb := grad0_anti (le_refl (11000 : ℝ)) c1
        rw [grad0_at_11000] at hb
        exact hb
      have hp2 : (isaTP h2).2 ≤ pb1 := by
        rcases lt_or_le h2 20000 with c3 | c3
        · rw [isaTP_layer1 c2 c3]; exact iso_le_pb1 c2
        · rw [isaTP_layer2 c3]
          exact (grad2_le_pb2 c3).trans pb2_lt_pb1.le
      linarith
  · rcases lt_or_le h1 20000 with c2 | c2
    · rcases lt_or_le h2 20000 with c3 | c3
      · rw [isaTP_layer1 c1 c2, isaTP_layer1 (by linarith) c3]
        exact iso_anti hlt
      · have hp1 : pb2 < (isaTP h1).2 := by
          rw [isaTP_layer1 c1 c2]
          have hb := iso_anti c2
          rw [iso_at_20000] at hb
          exact hb
        have hp2 : (isaTP h2).2 ≤ pb2 := by
          rw [isaTP_layer2 c3]; exact grad2_le_pb2 c3
        linarith
    · rw [isaTP_layer2 c2, isaTP_layer2 (by linarith : (20000 : ℝ) ≤ h2)]
      exact grad2_anti c2 hlt

/-- C6: the pressure returned by the atmosphere query is strictly decreasing
in geopotential altitude over the whole domain: if the scalar query succeeds
at `H1 < H2`, both in `[0, 32000]`, the pressure at `H2` is strictly below
the pressure at `H1`. -/
theorem isa_pressure_strict_anti (H1 H2 : ℝ) (st1 st2 : ISAState)
    (h0 : 0 ≤ H1) (hlt : H1 < H2) (h32 : H2 ≤ 32000)
    (e1 : isa_atmosphere_scalar H1 false = .ok st1)
    (e2 : isa_atmosphere_scalar H2 false = .ok st2) :
    st2.pressure < st1.pressure := by
  have k1 : isa_atmosphere_scalar H1 false = .ok (isaPoint H1 false) :=
    isa_scalar_ok false (by show (0 : ℝ) ≤ H1; exact h0)
      (by show H1 ≤ (32000 : ℝ); linarith)
  have k2 : isa_atmosphere_scalar H2 false = .ok (isaPoint H2 false) :=
    isa_scalar_ok false (by show (0 : ℝ) ≤ H2; linarith)
      (by show H2 ≤ (32000 : ℝ); exact h32)
  rw [k1] at e1
  rw [k2] at e2
  injection e1 with e1
  injection e2 with e2
  rw [← e1, ← e2]
  show (isaTP H2).2 < (isaTP H1).2
  exact isaTP_pressure_anti h0 hlt h32

/-- C6 witness at `H1 = 0`, `H2 = 32000`. -/
theorem isa_pressure_strict_anti_witness :
    (isaPoint 32000 false).pressure < (isaPoint 0 false).pressure :=
  isa_pressure_strict_anti 0 32000 (isaPoint 0 false) (isaPoint 32000 false)
    (by norm_num) (by norm_num) (by norm_num)
    (isa_scalar_ok false (by norm_num [convertH]) (by norm_num [convertH]))
    (isa_scalar_ok false (by norm_num [convertH]) (by norm_num [convertH]))

/-! ## Aerodynamics: the scalar claims -/

lemma aero_TAS_eq (speed l : ℝ) (atm : Option ISAState) :
    aerodynamic_state speed l "TAS" atm =
      .ok { TAS := speed
            EAS := speed * Real.sqrt ((atm.getD sea_level_atmosphere).density /
              sea_level_atmosphere.density)
            mach := speed / (atm.getD sea_level_atmosphere).speed_of_sound
            reynolds := speed * (atm.getD sea_level_atmosphere).density * l /
              (atm.getD sea_level_atmosphere).dynamic_viscosity
            dynamic_pressure := 0.5 * (atm.getD sea_level_atmosphere).density * speed ^ 2
            stagnation_pressure :=
              0.5 * (atm.getD sea_level_atmosphere).density * speed ^ 2 +
                (atm.getD sea_level_atmosphere).pressure } := rfl

lemma aero_EAS_TAS_value (speed l : ℝ) (atm : Option ISAState) :
    ∃ r, aerodynamic_state speed l "EAS" atm = .ok r ∧
      r.TAS = speed * Real.sqrt (sea_level_atmosphere.density /
        (atm.getD sea_level_atmosphere).density) ∧
      r.EAS = speed :=
  ⟨_, rfl, rfl, rfl⟩

/-- C7: starting from a positive TAS at a fixed atmosphere of positive
density, computing the aerodynamic state (speed kind TAS), feeding the
resulting EAS back in (speed kind EAS) recovers the original TAS exactly,
in particular within `1e-6`. -/
theorem aero_tas_eas_roundtrip (tas : ℝ) (st : ISAState)
    (htas : 0 < tas) (hρ : 0 < st.density) :
    ∃ r1 r2 : AeroState,
      aerodynamic_state tas 1 "TAS" (some st) = .ok r1 ∧
      aerodynamic_state r1.EAS 1 "EAS" (some st) = .ok r2 ∧
      r2.TAS = tas ∧ |r2.TAS - tas| < 1e-6 := by
  have hρ0 : 0 < sea_level_atmosphere.density := sea_level_density_pos
  have key : tas * Real.sqrt (st.density / sea_level_atmosphere.density) *
      Real.sqrt (sea_level_atmosphere.density / st.density) = tas := by
    rw [mul_assoc, ← Real.sqrt_mul (by positivity)]
    rw [show st.density / sea_level_atmosphere.density *
        (sea_level_atmosphere.density / st.density) = 1 by field_simp]
    rw [Real.sqrt_one, mul_one]
  obtain ⟨r2, h2, hTAS, hEAS⟩ := aero_EAS_TAS_value
    (tas * Real.sqrt (st.density / sea_level_atmosphere.density)) 1 (some st)
  refine ⟨_, r2, aero_TAS_eq tas 1 (some st), ?_, ?_, ?_⟩
  · exact h2
  · rw [hTAS]
    exact key
  · rw [hTAS]
    show |tas * Real.sqrt (st.density / sea_level_atmosphere.density) *
      Real.sqrt (sea_level_atmosphere.density / st.density) - tas| < 1e-6
    rw [key, sub_self, abs_zero]
    norm_num

/-- C7 witness: TAS 100 m/s at the sea-level atmosphere. -/
theorem aero_tas_eas_roundtrip_witness :
    ∃ r1 r2 : AeroState,
      aerodynamic_state 100 1 "TAS" (some sea_level_atmosphere) = .ok r1 ∧
      aerodynamic_state r1.EAS 1 "EAS" (some sea_level_atmosphere) = .ok r2 ∧
      r2.TAS = 100 ∧ |r2.TAS - 100| < 1e-6 :=
  aero_tas_eas_roundtrip 100 sea_level_atmosphere (by norm_num)
    sea_level_density_pos

/-- C8: the aerodynamic-state computation fails with the invalid-argument
error exactly on a `speed_type` outside the three enumerated values; on the
three valid values it succeeds, and the zero-valued fallback branch of the
TAS/EAS dispatch is never the branch selected. -/
theorem aero_speed_type_validation (speed l : ℝ) (atm : Option ISAState)
    (k : String) :
    (¬(k = "TAS" ∨ k = "EAS" ∨ k = "mach") →
      aerodynamic_state speed l k atm = .error .invalidArgument) ∧
    ((k = "TAS" ∨ k = "EAS" ∨ k = "mach") →
      (∃ r, aerodynamic_state speed l k atm = .ok r) ∧
        speedBranch k ≠ SpeedBranch.fallback) := by
  constructor
  · intro h
    unfold aerodynamic_state
    rw [if_pos h]
  · intro h
    constructor
    · unfold aerodynamic_state
      rw [if_neg (not_not_intro h)]
      exact ⟨_, rfl⟩
    · rcases h with h | h | h <;> subst h <;> decide

/-- C10: with no atmosphere argument the computation uses the precomputed
`sea_level_atmosphere`, and for a TAS input the returned EAS equals the
input TAS (since the density equals the sea-level reference density). -/
theorem aero_default_atmosphere (tas l : ℝ) :
    aerodynamic_state tas l "TAS" none =
      aerodynamic_state tas l "TAS" (some sea_level_atmosphere) ∧
    ∃ r, aerodynamic_state tas l "TAS" none = .ok r ∧ r.EAS = tas := by
  constructor
  · rfl
  · refine ⟨_, aero_TAS_eq tas l none, ?_⟩
    show tas * Real.sqrt (sea_level_atmosphere.density /
      sea_level_atmosphere.density) = tas
    rw [div_self sea_level_density_pos.ne', Real.sqrt_one, mul_one]

/-! ## Aerodynamics: broadcasting shapes -/

lemma exceptOk_bind {α β : Type} (a : α) (f : α → Except AeroError β) :
    (Except.ok a >>= f) = f a := rfl

lemma exceptErr_bind {α β : Type} (e : AeroError)
    (f : α → Except AeroError β) :
    ((Except.error e : Except AeroError α) >>= f) = .error e := rfl

lemma densityV_shape (a : AtmInput) : a.densityV.shape = a.shape := by
  cases a <;> simp [AtmInput.densityV, AtmInput.shape, Val.shape]

lemma sosV_shape (a : AtmInput) : a.sosV.shape = a.shape := by
  cases a <;> simp [AtmInput.sosV, AtmInput.shape, Val.shape]

lemma muV_shape (a : AtmInput) : a.muV.shape = a.shape := by
  cases a <;> simp [AtmInput.muV, AtmInput.shape, Val.shape]

lemma pV_shape (a : AtmInput) : a.pV.shape = a.shape := by
  cases a <;> simp [AtmInput.pV, AtmInput.shape, Val.shape]

lemma bcast_ok_shape (f : ℝ → ℝ → ℝ) (a b : Val)
    (h : shapeCompat a.shape b.shape) :
    ∃ c, bcast f a b = .ok c ∧ c.shape = shapeJoin a.shape b.shape := by
  cases a with
  | scalar x =>
    cases b with
    | scalar y => exact ⟨_, rfl, rfl⟩
    | arr ys => exact ⟨_, rfl, by simp [Val.shape, shapeJoin]⟩
  | arr xs =>
    cases b with
    | scalar y => exact ⟨_, rfl, by simp [Val.shape, shapeJoin]⟩
    | arr ys =>
      simp only [Val.shape, shapeCompat] at h
      by_cases hlen : xs.length = ys.length
      · have he : bcast f (.arr xs) (.arr ys) =
            .ok (.arr (List.zipWith f xs ys)) := by
          simp only [bcast]
          rw [if_pos hlen]
        refine ⟨_, he, ?_⟩
        have hite : (if xs.length = 1 then ys.length else xs.length) =
            min xs.length ys.length := by
          split <;> omega
        simp [Val.shape, shapeJoin, List.length_zipWith, hite]
      · rcases h with h | h | h
        · exact absurd h hlen
        · obtain ⟨x, rfl⟩ := List.length_eq_one.mp h
          have he : bcast f (.arr [x]) (.arr ys) =
              .ok (.arr (ys.map (fun y => f x y))) := by
            simp only [bcast]
            rw [if_neg hlen]
          refine ⟨_, he, ?_⟩
          simp [Val.shape, shapeJoin]
        · obtain ⟨y, rfl⟩ := List.length_eq_one.mp h
          have hx1 : xs.length ≠ 1 := by simpa using hlen
          rcases xs with _ | ⟨x1, _ | ⟨x2, rest⟩⟩
          · have he : bcast f (.arr []) (.arr [y]) =
                .ok (.arr (List.map (fun x => f x y) [])) := by
              simp only [bcast]
              rw [if_neg hlen]
            refine ⟨_, he, ?_⟩
            simp [Val.shape, shapeJoin]
          · exact absurd rfl hx1
          · have he : bcast f (.arr (x1 :: x2 :: rest)) (.arr [y]) =
                .ok (.arr (List.map (fun x => f x y) (x1 :: x2 :: rest))) := by
              simp only [bcast]
              rw [if_neg hlen]
            refine ⟨_, he, ?_⟩
            simp [Val.shape, shapeJoin]

lemma bcast_mismatch (f : ℝ → ℝ → ℝ) (a b : Val)
    (h : ¬ shapeCompat a.shape b.shape) :
    bcast f a b = .error .shapeMismatch := by
  cases a with
  | scalar x => exact absurd trivial h
  | arr xs =>
    cases b with
    | scalar y => exact absurd trivial h
    | arr ys =>
      simp only [Val.shape, shapeCompat] at h
      push_neg at h
      obtain ⟨hmn, hm1, hn1⟩ := h
      rcases xs with _ | ⟨x1, _ | ⟨x2, xrest⟩⟩
      · rcases ys with _ | ⟨y1, _ | ⟨y2, yrest⟩⟩
        · exact absurd rfl hmn
        · exact absurd rfl hn1
        · simp only [bcast]
          rw [if_neg (by simpa using hmn)]
      · exact absurd rfl hm1
      · rcases ys with _ | ⟨y1, _ | ⟨y2, yrest⟩⟩
        · simp only [bcast]
          rw [if_neg (by simpa using hmn)]
        · exact absurd rfl hn1
        · simp only [bcast]
          rw [if_neg (by simpa using hmn)]

lemma shapeCompat_symm {s t : Option ℕ} (h : shapeCompat s t) :
    shapeCompat t s := by
  rcases s with _ | m <;> rcases t with _ | n <;>
    simp_all [shapeCompat] <;> omega

lemma shapeCompat_join_right {s t : Option ℕ} (h : shapeCompat s t) :
    shapeCompat (shapeJoin s t) t := by
  rcases s with _ | m <;> rcases t with _ | n <;>
    simp_all [shapeCompat, shapeJoin] <;> split_ifs <;> omega

lemma shapeCompat_join_left {s t : Option ℕ} (h : shapeCompat s t) :
    shapeCompat (shapeJoin s t) s := by
  rcases s with _ | m <;> rcases t with _ | n <;>
    simp_all [shapeCompat, shapeJoin] <;> split_ifs <;> omega

lemma shapeCompat_jju {s t u : Option ℕ} (h1 : shapeCompat s t)
    (h2 : shapeCompat (shapeJoin s t) u) :
    shapeCompat (shapeJoin (shapeJoin s t) u) t := by
  rcases s with _ | m <;> rcases t with _ | n <;> rcases u with _ | r <;>
    simp_all [shapeCompat, shapeJoin] <;> split_ifs <;> omega

lemma shapeJoin_join_right {s t : Option ℕ} (h : shapeCompat s t) :
    shapeJoin (shapeJoin s t) t = shapeJoin s t := by
  rcases s with _ | m <;> rcases t with _ | n <;>
    simp_all [shapeCompat, shapeJoin] <;> split_ifs <;> omega

lemma shapeJoin_join_left {s t : Option ℕ} (h : shapeCompat s t) :
    shapeJoin (shapeJoin s t) s = shapeJoin s t := by
  rcases s with _ | m <;> rcases t with _ | n <;>
    simp_all [shapeCompat, shapeJoin] <;> split_ifs <;> omega

lemma shapeJoin_comm {s t : Option ℕ} (h : shapeCompat s t) :
    shapeJoin s t = shapeJoin t s := by
  rcases s with _ | m <;> rcases t with _ | n <;>
    simp_all [shapeCompat, shapeJoin] <;> split_ifs <;> omega

lemma shapeJoin_jju {s t u : Option ℕ} (h1 : shapeCompat s t)
    (h2 : shapeCompat (shapeJoin s t) u) :
    shapeJoin (shapeJoin (shapeJoin s t) u) t = shapeJoin (shapeJoin s t) u := by
  rcases s with _ | m <;> rcases t with _ | n <;> rcases u with _ | r <;>
    simp_all [shapeCompat, shapeJoin] <;> split_ifs <;> omega

/-! ### Shapes through the TAS/EAS dispatch and the rest of the pipeline -/

lemma tasEasV_TAS_ok (speed rho sos : Val) (rho0 : ℝ)
    (h : shapeCompat speed.shape rho.shape) :
    ∃ TE : Val × Val, tasEasV speed "TAS" rho sos rho0 = .ok TE ∧
      TE.1 = speed ∧ TE.2.shape = shapeJoin speed.shape rho.shape := by
  obtain ⟨EAS, hE, hEs⟩ :=
    bcast_ok_shape (fun t r => t * Real.sqrt (r / rho0)) speed rho h
  have he : tasEasV speed "TAS" rho sos rho0 = .ok (speed, EAS) := by
    simp only [tasEasV]
    rw [if_pos trivial]
    simp only [hE, exceptOk_bind]
  exact ⟨_, he, rfl, hEs⟩

lemma tasEasV_TAS_err (speed rho sos : Val) (rho0 : ℝ)
    (h : ¬ shapeCompat speed.shape rho.shape) :
    tasEasV speed "TAS" rho sos rho0 = .error .shapeMismatch := by
  simp only [tasEasV]
  rw [if_pos trivial, bcast_mismatch _ _ _ h, exceptErr_bind]

lemma tasEasV_EAS_ok (speed rho sos : Val) (rho0 : ℝ)
    (h : shapeCompat speed.shape rho.shape) :
    ∃ TE : Val × Val, tasEasV speed "EAS" rho sos rho0 = .ok TE ∧
      TE.1.shape = shapeJoin speed.shape rho.shape ∧ TE.2 = speed := by
  obtain ⟨TAS, hT, hTs⟩ :=
    bcast_ok_shape (fun e r => e * Real.sqrt (rho0 / r)) speed rho h
  have he : tasEasV speed "EAS" rho sos rho0 = .ok (TAS, speed) := by
    simp only [tasEasV]
    rw [if_neg (by decide), if_pos trivial]
    simp only [hT, exceptOk_bind]
  exact ⟨_, he, hTs, rfl⟩

lemma tasEasV_EAS_err (speed rho sos : Val) (rho0 : ℝ)
    (h : ¬ shapeCompat speed.shape rho.shape) :
    tasEasV speed "EAS" rho sos rho0 = .error .shapeMismatch := by
  simp only [tasEasV]
  rw [if_neg (by decide), if_pos trivial, bcast_mismatch _ _ _ h, exceptErr_bind]

lemma tasEasV_mach_ok (speed rho sos : Val) (rho0 : ℝ)
    (hsos : sos.shape = rho.shape)
    (h : shapeCompat speed.shape rho.shape) :
    ∃ TE : Val × Val, tasEasV speed "mach" rho sos rho0 = .ok TE ∧
      TE.1.shape = shapeJoin speed.shape rho.shape ∧
      TE.2.shape = shapeJoin speed.shape rho.shape := by
  obtain ⟨TAS, hT, hTs⟩ := bcast_ok_shape (fun m s => m * s) speed sos
    (by rw [hsos]; exact h)
  rw [hsos] at hTs
  obtain ⟨EAS, hE, hEs⟩ :=
    bcast_ok_shape (fun t r => t * Real.sqrt (r / rho0)) TAS rho
      (by rw [hTs]; exact shapeCompat_join_right h)
  rw [hTs, shapeJoin_join_right h] at hEs
  have he : tasEasV speed "mach" rho sos rho0 = .ok (TAS, EAS) := by
    simp only [tasEasV]
    rw [if_neg (by decide), if_neg (by decide), if_pos trivial]
    simp only [hT, hE, exceptOk_bind]
  exact ⟨_, he, hTs, hEs⟩

lemma tasEasV_mach_err (speed rho sos : Val) (rho0 : ℝ)
    (hsos : sos.shape = rho.shape)
    (h : ¬ shapeCompat speed.shape rho.shape) :
    tasEasV speed "mach" rho sos rho0 = .error .shapeMismatch := by
  simp only [tasEasV]
  rw [if_neg (by decide), if_neg (by decide), if_pos trivial,
    bcast_mismatch _ _ _ (by rw [hsos]; exact h), exceptErr_bind]

lemma aeroRest_ok (TE : Val × Val) (rho sos mu p charlen : Val)
    (hsos : sos.shape = rho.shape) (hmu : mu.shape = rho.shape)
    (hp : p.shape = rho.shape)
    (h1 : shapeCompat TE.1.shape rho.shape)
    (h2 : shapeCompat (shapeJoin TE.1.shape rho.shape) charlen.shape) :
    ∃ r, aeroRest TE rho sos mu p charlen = .ok r ∧
      r.TAS = TE.1 ∧ r.EAS = TE.2 ∧
      r.mach.shape = shapeJoin TE.1.shape rho.shape ∧
      r.reynolds.shape =
        shapeJoin (shapeJoin TE.1.shape rho.shape) charlen.shape ∧
      r.dynamic_pressure.shape = shapeJoin TE.1.shape rho.shape ∧
      r.stagnation_pressure.shape = shapeJoin TE.1.shape rho.shape := by
  obtain ⟨mach, hmach, hmachs⟩ := bcast_ok_shape (fun t s => t / s) TE.1 sos
    (by rw [hsos]; exact h1)
  rw [hsos] at hmachs
  obtain ⟨r1, hr1, hr1s⟩ := bcast_ok_shape (fun t r => t * r) TE.1 rho h1
  obtain ⟨r2, hr2, hr2s⟩ := bcast_ok_shape (fun a l => a * l) r1 charlen
    (by rw [hr1s]; exact h2)
  rw [hr1s] at hr2s
  obtain ⟨rey, hrey, hreys⟩ := bcast_ok_shape (fun a m => a / m) r2 mu
    (by rw [hr2s, hmu]; exact shapeCompat_jju h1 h2)
  rw [hr2s, hmu, shapeJoin_jju h1 h2] at hreys
  obtain ⟨q, hq, hqs⟩ := bcast_ok_shape (fun r t => 0.5 * r * t ^ 2) rho TE.1
    (shapeCompat_symm h1)
  rw [shapeJoin_comm (shapeCompat_symm h1)] at hqs
  obtain ⟨pst, hpst, hpsts⟩ := bcast_ok_shape (fun a b => a + b) q p
    (by rw [hqs, hp]; exact shapeCompat_join_right h1)
  rw [hqs, hp, shapeJoin_join_right h1] at hpsts
  have hall : aeroRest TE rho sos mu p charlen =
      .ok { TAS := TE.1, EAS := TE.2, mach := mach, reynolds := rey,
            dynamic_pressure := q, stagnation_pressure := pst } := by
    simp only [aeroRest, hmach, hr1, hr2, hrey, hq, hpst, exceptOk_bind]
  exact ⟨_, hall, rfl, rfl, hmachs, hreys, hqs, hpsts⟩

lemma aeroRest_err (TE : Val × Val) (rho sos mu p charlen : Val)
    (hsos : sos.shape = rho.shape)
    (h1 : shapeCompat TE.1.shape rho.shape)
    (h2 : ¬ shapeCompat (shapeJoin TE.1.shape rho.shape) charlen.shape) :
    aeroRest TE rho sos mu p charlen = .error .shapeMismatch := by
  obtain ⟨mach, hmach, hmachs⟩ := bcast_ok_shape (fun t s => t / s) TE.1 sos
    (by rw [hsos]; exact h1)
  obtain ⟨r1, hr1, hr1s⟩ := bcast_ok_shape (fun t r => t * r) TE.1 rho h1
  have herr : bcast (fun a l => a * l) r1 charlen = .error .shapeMismatch :=
    bcast_mismatch _ _ _ (by rw [hr1s]; exact h2)
  simp only [aeroRest, hmach, hr1, herr, exceptOk_bind, exceptErr_bind]

lemma aero_bc_eq (speed charlen : Val) (k : String) (atm : AtmInput)
    (hk : k = "TAS" ∨ k = "EAS" ∨ k = "mach") :
    aerodynamic_state_bc speed charlen k (some atm) =
      (tasEasV speed k atm.densityV atm.sosV
          sea_level_atmosphere.density >>= fun TE =>
        aeroRest TE atm.densityV atm.sosV atm.muV atm.pV charlen) := by
  unfold aerodynamic_state_bc
  rw [if_neg (not_not_intro hk)]
  rfl

/-- C9 (amended): for a valid speed kind, the batched computation fails with
the shape-mismatch error exactly when the shapes of `speed`, the atmosphere
and `characteristic_length` are not NumPy-broadcast-compatible; when they are
compatible it succeeds, and each output field carries the broadcast join of
the shapes of the arguments it is computed from — in particular the `TAS`
field keeps the `speed` argument's own shape when the kind is `TAS`, and the
`EAS` field keeps it when the kind is `EAS`, rather than always taking the
common array shape. -/
theorem aero_shape_broadcast (speed charlen : Val) (atm : AtmInput)
    (k : String) (hk : k = "TAS" ∨ k = "EAS" ∨ k = "mach") :
    (¬(shapeCompat speed.shape atm.shape ∧
        shapeCompat (shapeJoin speed.shape atm.shape) charlen.shape) →
      aerodynamic_state_bc speed charlen k (some atm) =
        .error .shapeMismatch) ∧
    ((shapeCompat speed.shape atm.shape ∧
        shapeCompat (shapeJoin speed.shape atm.shape) charlen.shape) →
      ∃ r, aerodynamic_state_bc speed charlen k (some atm) = .ok r ∧
        r.TAS.shape =
          (if k = "TAS" then speed.shape
            else shapeJoin speed.shape atm.shape) ∧
        r.EAS.shape =
          (if k = "EAS" then speed.shape
            else shapeJoin speed.shape atm.shape) ∧
        r.mach.shape = shapeJoin speed.shape atm.shape ∧
        r.reynolds.shape =
          shapeJoin (shapeJoin speed.shape atm.shape) charlen.shape ∧
        r.dynamic_pressure.shape = shapeJoin speed.shape atm.shape ∧
        r.stagnation_pressure.shape = shapeJoin speed.shape atm.shape) := by
  have hrho := densityV_shape atm
  have hsos0 : atm.sosV.shape = atm.densityV.shape := by
    rw [sosV_shape, densityV_shape]
  have hmu0 : atm.muV.shape = atm.densityV.shape := by
    rw [muV_shape, densityV_shape]
  have hp0 : atm.pV.shape = atm.densityV.shape := by
    rw [pV_shape, densityV_shape]
  constructor
  · intro hn
    by_cases hA : shapeCompat speed.shape atm.shape
    · have hB : ¬ shapeCompat (shapeJoin speed.shape atm.shape)
          charlen.shape := fun hB => hn ⟨hA, hB⟩
      rw [aero_bc_eq speed charlen k atm hk]
      rcases hk with rfl | rfl | rfl
      · obtain ⟨TE, hTE, hT1, hT2s⟩ := tasEasV_TAS_ok speed atm.densityV
          atm.sosV sea_level_atmosphere.density (by rw [hrho]; exact hA)
        simp only [hTE, exceptOk_bind]
        exact aeroRest_err TE _ _ _ _ _ hsos0
          (by rw [hT1, hrho]; exact hA)
          (by rw [hT1, hrho]; exact hB)
      · obtain ⟨TE, hTE, hT1s, hT2⟩ := tasEasV_EAS_ok speed atm.densityV
          atm.sosV sea_level_atmosphere.density (by rw [hrho]; exact hA)
        simp only [hTE, exceptOk_bind]
        refine aeroRest_err TE _ _ _ _ _ hsos0 ?_ ?_
        · rw [hT1s, hrho]
          exact shapeCompat_join_right hA
        · rw [hT1s, hrho, shapeJoin_join_right hA]
          exact hB
      · obtain ⟨TE, hTE, hT1s, hT2s⟩ := tasEasV_mach_ok speed atm.densityV
          atm.sosV sea_level_atmosphere.density hsos0 (by rw [hrho]; exact hA)
        simp only [hTE, exceptOk_bind]
        refine aeroRest_err TE _ _ _ _ _ hsos0 ?_ ?_
        · rw [hT1s, hrho]
          exact shapeCompat_join_right hA
        · rw [hT1s, hrho, shapeJoin_join_right hA]
          exact hB
    · rw [aero_bc_eq speed charlen k atm hk]
      rcases hk with rfl | rfl | rfl
      · rw [tasEasV_TAS_err _ _ _ _ (by rw [hrho]; exact hA), exceptErr_bind]
      · rw [tasEasV_EAS_err _ _ _ _ (by rw [hrho]; exact hA), exceptErr_bind]
      · rw [tasEasV_mach_err _ _ _ _ hsos0 (by rw [hrho]; exact hA),
          exceptErr_bind]
  · rintro ⟨hA, hB⟩
    rcases hk with rfl | rfl | rfl
    · obtain ⟨TE, hTE, hT1, hT2s⟩ := tasEasV_TAS_ok speed atm.densityV
        atm.sosV sea_level_atmosphere.density (by rw [hrho]; exact hA)
      obtain ⟨r, hr, hrT, hrE, hrm, hrrey, hrq, hrp⟩ :=
        aeroRest_ok TE atm.densityV atm.sosV atm.muV atm.pV charlen
          hsos0 hmu0 hp0 (by rw [hT1, hrho]; exact hA)
          (by rw [hT1, hrho]; exact hB)
      refine ⟨r, ?_, ?_, ?_, ?_, ?_, ?_, ?_⟩
      · rw [aero_bc_eq speed charlen "TAS" atm (Or.inl rfl)]
        simp only [hTE, exceptOk_bind]
        exact hr
      · rw [if_pos rfl, hrT, hT1]
      · rw [if_neg (by decide), hrE]
        rw [hT2s, hrho]
      · rw [hrm, hT1, hrho]
      · rw [hrrey, hT1, hrho]
      · rw [hrq, hT1, hrho]
      · rw [hrp, hT1, hrho]
    · obtain ⟨TE, hTE, hT1s, hT2⟩ := tasEasV_EAS_ok speed atm.densityV
        atm.sosV sea_level_atmosphere.density (by rw [hrho]; exact hA)
      obtain ⟨r, hr, hrT, hrE, hrm, hrrey, hrq, hrp⟩ :=
        aeroRest_ok TE atm.densityV atm.sosV atm.muV atm.pV charlen
          hsos0 hmu0 hp0
          (by rw [hT1s, hrho]; exact shapeCompat_join_right hA)
          (by rw [hT1s, hrho, shapeJoin_join_right hA]; exact hB)
      refine ⟨r, ?_, ?_, ?_, ?_, ?_, ?_, ?_⟩
      · rw [aero_bc_eq speed charlen "EAS" atm (Or.inr (Or.inl rfl))]
        simp only [hTE, exceptOk_bind]
        exact hr
      · rw [if_neg (by decide), hrT, hT1s, hrho]
      · rw [if_pos rfl, hrE, hT2]
      · rw [hrm, hT1s, hrho, shapeJoin_join_right hA]
      · rw [hrrey, hT1s, hrho, shapeJoin_join_right hA]
      · rw [hrq, hT1s, hrho, shapeJoin_join_right hA]
      · rw [hrp, hT1s, hrho, shapeJoin_join_right hA]
    · obtain ⟨TE, hTE, hT1s, hT2s⟩ := tasEasV_mach_ok speed atm.densityV
        atm.sosV sea_level_atmosphere.density hsos0 (by rw [hrho]; exact hA)
      obtain ⟨r, hr, hrT, hrE, hrm, hrrey, hrq, hrp⟩ :=
        aeroRest_ok TE atm.densityV atm.sosV atm.muV atm.pV charlen
          hsos0 hmu0 hp0
          (by rw [hT1s, hrho]; exact shapeCompat_join_right hA)
          (by rw [hT1s, hrho, shapeJoin_join_right hA]; exact hB)
      refine ⟨r, ?_, ?_, ?_, ?_, ?_, ?_, ?_⟩
      · rw [aero_bc_eq speed charlen "mach" atm (Or.inr (Or.inr rfl))]
        simp only [hTE, exceptOk_bind]
        exact hr
      · rw [if_neg (by decide), hrT, hT1s, hrho]
      · rw [if_neg (by decide), hrE, hT2s, hrho]
      · rw [hrm, hT1s, hrho, shapeJoin_join_right hA]
      · rw [hrrey, hT1s, hrho, shapeJoin_join_right hA]
      · rw [hrq, hT1s, hrho, shapeJoin_join_right hA]
      · rw [hrp, hT1s, hrho, shapeJoin_join_right hA]

/-- C9 witness: a mismatched pair (speed of length 2, atmosphere sequence of
length 3) fails with the shape-mismatch error, applied through the theorem. -/
theorem aero_shape_broadcast_witness :
    aerodynamic_state_bc (.arr [1, 2]) (.scalar 1) "TAS"
      (some (.many [sea_level_atmosphere, sea_level_atmosphere,
        sea_level_atmosphere])) = .error .shapeMismatch :=
  (aero_shape_broadcast (.arr [1, 2]) (.scalar 1)
    (.many [sea_level_atmosphere, sea_level_atmosphere,
      sea_level_atmosphere]) "TAS" (Or.inl rfl)).1
    (by
      intro hc
      have h := hc.1
      simp [Val.shape, AtmInput.shape, shapeCompat] at h)

/-- C9 counterexample to the claim as stated: with speed kind TAS, a scalar
speed, a scalar atmosphere and an array characteristic length of length 2
(the array-shaped arguments trivially agree on the shape `some 2`), the call
succeeds but the returned `mach` field is scalar, not of the common array
shape. -/
theorem aero_shape_claim_counterexample :
    ∃ r, aerodynamic_state_bc (.scalar 100) (.arr [1, 2]) "TAS"
        (some (.one sea_level_atmosphere)) = .ok r ∧
      r.mach.shape = none ∧ ¬ r.mach.shape = some 2 :=
  ⟨_, rfl, rfl, by simp [Val.shape]⟩

end IsaToolkit
